import Mathlib

/-!
# Verification of the Vision-AI Tiling & Quality-Assessment Engine

Shallow embedding of `src/app/tiling.py` and `src/app/quality_assessment.py`
(repository `samestrin/chromium-screenshots`).

Conventions of the embedding:
* Python `int` is modelled as `Int` (`Nat` for values that are non-negative by
  construction, such as tile coordinates).
* Python `float` arithmetic is modelled exactly with `ℚ`.
* Python functions that can raise (`ValueError`, `ZeroDivisionError`) are
  modelled with `Except String`; the error string mirrors the raised message.
* Python `while` loops are modelled as structurally recursive functions with a
  fuel argument; the callers supply fuel that provably never runs out for the
  inputs that pass validation (the loop advances by at least one pixel per
  iteration, so `page_width` / `page_height` iterations suffice).
* Warning records (`QualityWarning` in the source carry `code`, `message`,
  `suggestion`); only the machine-readable `code` is modelled — the message and
  suggestion prose (including locale-style number formatting) plays no role in
  any verified property.  Likewise the human-readable `reason` strings of
  `_check_model_compatibility` and the `tiling_reason` field are elided.
-/

/-! ## src/app/tiling.py -/

/-- `TileBounds` (tiling.py, lines 12-34): position and size of a tile within
the full page.  The pydantic model constrains all fields to be non-negative
and `width`, `height` to be positive, hence the `Nat` fields. -/
structure TileBounds where
  index : Nat
  row : Nat
  column : Nat
  x : Nat
  y : Nat
  width : Nat
  height : Nat
deriving Repr, DecidableEq

/-- The value bundle stored for each preset of `VISION_AI_PRESETS` and
returned by `apply_vision_preset` (a Python dict with exactly the keys
`tile_width`, `tile_height`, `overlap`). -/
structure PresetConfig where
  tile_width : Int
  tile_height : Int
  overlap : Int
deriving Repr, DecidableEq

/-- `VISION_AI_PRESETS` (tiling.py, lines 40-56). -/
def VISION_AI_PRESETS : List (String × PresetConfig) :=
  [("claude", ⟨1568, 1568, 50⟩),
   ("gemini", ⟨3072, 3072, 100⟩),
   ("gpt4v", ⟨2048, 2048, 75⟩)]

/-- `_validate_dimensions` (tiling.py, lines 59-95): returns the message of
the `ValueError` the Python function raises, or `none` when all checks pass.
The checks run in source order and short-circuit at the first failure. -/
def _validate_dimensions (page_width page_height viewport_width viewport_height overlap : Int) :
    Option String :=
  if page_width ≤ 0 then some s!"page_width must be positive, got {page_width}"
  else if page_height ≤ 0 then some s!"page_height must be positive, got {page_height}"
  else if viewport_width ≤ 0 then some s!"viewport_width must be positive, got {viewport_width}"
  else if viewport_height ≤ 0 then
    some s!"viewport_height must be positive, got {viewport_height}"
  else if overlap < 0 then some s!"overlap must be non-negative, got {overlap}"
  else if overlap ≥ viewport_width then
    some s!"overlap ({overlap}) must be less than viewport_width ({viewport_width})"
  else if overlap ≥ viewport_height then
    some s!"overlap ({overlap}) must be less than viewport_height ({viewport_height})"
  else none

/-- Inner `while x < page_width` loop of `calculate_tile_grid`
(tiling.py, lines 160-184), emitting the tiles of one row.  `y`, `tile_height`
and `row` are fixed for the row; `tile_index`, `x` and `col` are the running
loop variables.  The loop advances `x` by `viewport_width - overlap ≥ 1` per
iteration (validation guarantees `overlap < viewport_width`), so any
`fuel ≥ page_width - x` reproduces the Python loop exactly. -/
def tileRowLoop (fuel : Nat) (page_width viewport_width overlap : Nat)
    (y tile_height row : Nat) (tile_index x col : Nat) : List TileBounds :=
  match fuel with
  | 0 => []
  | fuel + 1 =>
    if x < page_width then
      let tile_width := min viewport_width (page_width - x)
      let t : TileBounds := ⟨tile_index, row, col, x, y, tile_width, tile_height⟩
      if x + tile_width ≥ page_width then [t]
      else t :: tileRowLoop fuel page_width viewport_width overlap y tile_height row
        (tile_index + 1) (x + (viewport_width - overlap)) (col + 1)
    else []

/-- Outer `while y < page_height` loop of `calculate_tile_grid`
(tiling.py, lines 156-191).  The tiles of each row are produced by `tileRowLoop`
with fuel `page_width`; the Python `tile_index` after a row equals the index
before it plus the number of tiles the row emitted.  `y` advances by
`viewport_height - overlap ≥ 1` per iteration, so any `fuel ≥ page_height - y`
reproduces the Python loop exactly. -/
def tileGridLoop (fuel : Nat) (page_width page_height viewport_width viewport_height overlap : Nat)
    (y row tile_index : Nat) : List TileBounds :=
  match fuel with
  | 0 => []
  | fuel + 1 =>
    if y < page_height then
      let tile_height := min viewport_height (page_height - y)
      let rowTiles :=
        tileRowLoop page_width page_width viewport_width overlap y tile_height row tile_index 0 0
      if y + tile_height ≥ page_height then rowTiles
      else rowTiles ++ tileGridLoop fuel page_width page_height viewport_width viewport_height
        overlap (y + (viewport_height - overlap)) (row + 1) (tile_index + rowTiles.length)
    else []

/-- `calculate_tile_grid` (tiling.py, lines 98-193).  `page_width` and
`viewport_width` are the optional keyword parameters (Python `None` defaults:
`viewport_width = 1200`, `page_width = viewport_width`).  Raising `ValueError`
is modelled by returning `Except.error` with the message produced by
`_validate_dimensions`. -/
def calculate_tile_grid (page_height viewport_height overlap : Int)
    (page_width viewport_width : Option Int) : Except String (List TileBounds) :=
  match _validate_dimensions (page_width.getD (viewport_width.getD 1200)) page_height
      (viewport_width.getD 1200) viewport_height overlap with
  | some msg => .error msg
  | none =>
      .ok (tileGridLoop page_height.toNat (page_width.getD (viewport_width.getD 1200)).toNat
        page_height.toNat (viewport_width.getD 1200).toNat viewport_height.toNat overlap.toNat
        0 0 0)

/-- Element rectangle `{x, y, width, height}` of Python floats
(dict in the source, modelled with exact rational arithmetic). -/
structure Rect where
  x : ℚ
  y : ℚ
  width : ℚ
  height : ℚ
deriving Repr, DecidableEq

/-- `adjust_element_coordinates` (tiling.py, lines 196-224): returns a new
rectangle shifted by the offset of the tile; width and height are copied. -/
def adjust_element_coordinates (element_rect : Rect) (tile_bounds : TileBounds) : Rect :=
  { x := element_rect.x + (tile_bounds.x : ℚ)
    y := element_rect.y + (tile_bounds.y : ℚ)
    width := element_rect.width
    height := element_rect.height }

/-- `adjust_elements_batch` (tiling.py, lines 227-250). -/
def adjust_elements_batch (elements : List Rect) (tile_bounds : TileBounds) : List Rect :=
  elements.map (fun el => adjust_element_coordinates el tile_bounds)

/-- Python `str.lower()`.  Character-wise ASCII lowercasing; every name this
code lowercases (preset names, HTML tag names) is ASCII, where this is exact.
(Defined over the character list so that the kernel can evaluate it; the
library `String.toLower` is defined by well-founded recursion.) -/
def pyLower (s : String) : String := ⟨s.data.map Char.toLower⟩

/-- `apply_vision_preset` (tiling.py, lines 253-302).  Lookup is on the
lowercased name; the unknown-name error message enumerates
`sorted(VISION_AI_PRESETS.keys())` — the keys are already listed in sorted
order, so joining them directly matches `sorted(...)`.  (The source wraps the
offending name in single quotation marks; the quotation marks are elided
here.)  The `.copy()` and field overrides of the source are modelled by
building a new record with each explicitly supplied field replaced. -/
def apply_vision_preset (preset_name : String)
    (tile_width tile_height overlap : Option Int) : Except String PresetConfig :=
  match VISION_AI_PRESETS.lookup (pyLower preset_name) with
  | none =>
      .error (s!"Unknown Vision AI preset {preset_name}. Valid options: " ++
        String.intercalate ", " (VISION_AI_PRESETS.map Prod.fst))
  | some preset =>
      .ok { tile_width := tile_width.getD preset.tile_width
            tile_height := tile_height.getD preset.tile_height
            overlap := overlap.getD preset.overlap }

/-- `calculate_per_tile_wait` (tiling.py, lines 305-336).  Python `//` is
floor division, `Int.fdiv`; dividing by `tile_count = 0` raises
`ZeroDivisionError`, modelled as `Except.error` with the CPython message.
The division is only reached when `wait_for_timeout > 0`. -/
def calculate_per_tile_wait (wait_for_timeout tile_count min_wait : Int) :
    Except String Int :=
  if wait_for_timeout ≤ 0 then .ok min_wait
  else if tile_count = 0 then .error "integer division or modulo by zero"
  else .ok (max min_wait (Int.fdiv wait_for_timeout tile_count))

example : calculate_tile_grid 3000 800 50 none none =
    .ok [⟨0, 0, 0, 0, 0, 1200, 800⟩, ⟨1, 1, 0, 0, 750, 1200, 800⟩,
         ⟨2, 2, 0, 0, 1500, 1200, 800⟩, ⟨3, 3, 0, 0, 2250, 1200, 750⟩] := by
  rfl

example : calculate_tile_grid 500 800 50 none none = .ok [⟨0, 0, 0, 0, 0, 1200, 500⟩] := by
  rfl

example : calculate_per_tile_wait 1000 4 50 = .ok 250 := by rfl

example : apply_vision_preset "Claude" none none (some 7) = .ok ⟨1568, 1568, 7⟩ := by rfl

/-! ## src/app/quality_assessment.py

No `vision_model_config.json` sidecar file exists in the repository and no
environment overrides are modelled, so the module-level configuration
(`_MODEL_CONFIG = None`) resolves every `_get_model_limit`, the default model
and the tile-overlap percentage to the built-in defaults spelled out in the
source. -/

/-- `ExtractionQuality` (models.py, lines 177-191). -/
inductive ExtractionQuality where
  | GOOD
  | LOW
  | POOR
  | EMPTY
deriving Repr, DecidableEq

/-- `DomElement` (models.py, lines 42-67), restricted to the three fields
`assess_extraction_quality` reads (`tag_name`, `text`, `is_visible`); all
three are required fields of the pydantic model. -/
structure DomElement where
  tag_name : String
  text : String
  is_visible : Bool
deriving Repr, DecidableEq

/-- Thresholds (quality_assessment.py, lines 41-47). -/
def THRESHOLD_POOR : Nat := 4

def THRESHOLD_LOW : Nat := 20

def THRESHOLD_GOOD : Nat := 21

def THRESHOLD_TAG_DIVERSITY : Nat := 3

/-- `THRESHOLD_HIDDEN_RATIO = 0.5` (quality_assessment.py, line 46), under a
shortened name. -/
def THRESHOLD_HIDDEN : ℚ := 1 / 2

def THRESHOLD_MIN_TEXT_LENGTH : Nat := 10

/-- `HEADING_TAGS` (quality_assessment.py, line 50). -/
def HEADING_TAGS : List String := ["h1", "h2", "h3", "h4", "h5", "h6"]

/-- The lowercased tag of one element (`tag_lower` in the single pass,
quality_assessment.py line 185). -/
def tagLower (e : DomElement) : String := pyLower e.tag_name

/-- The distinct lowercased tags, first occurrence first: the value of
`unique_tags_set` after the single pass (insertion order is irrelevant to
every use: its size, sortedness, membership). -/
def uniqueTags (elements : List DomElement) : List String :=
  (elements.map tagLower).dedup

/-- `has_heading` after the single pass (quality_assessment.py, lines 191-192). -/
def hasHeading (elements : List DomElement) : Bool :=
  elements.any (fun e => HEADING_TAGS.contains (tagLower e))

/-- `heading_count` after the single pass. -/
def headingCount (elements : List DomElement) : Nat :=
  elements.countP (fun e => HEADING_TAGS.contains (tagLower e))

/-- `visible_count` after the single pass (quality_assessment.py, lines 195-197). -/
def visibleCount (elements : List DomElement) : Nat :=
  elements.countP (fun e => e.is_visible)

/-- `total_text_length` after the single pass. -/
def totalTextLength (elements : List DomElement) : Nat :=
  (elements.map (fun e => e.text.length)).sum

/-- `min_text_length` after the single pass: starts at infinity and is reset
to `0` when no element updated it (quality_assessment.py, lines 179, 202-203,
208-209), i.e. the minimum text length over a non-empty list and `0` for `[]`. -/
def minTextLength (elements : List DomElement) : Nat :=
  match elements.map (fun e => e.text.length) with
  | [] => 0
  | l :: ls => ls.foldl min l

/-- `max_text_length` after the single pass (starts at `0`). -/
def maxTextLength (elements : List DomElement) : Nat :=
  (elements.map (fun e => e.text.length)).foldl max 0

/-- `tag_distribution` after the single pass: each distinct lowercased tag
(first occurrence first, matching dict insertion order) with its number of
occurrences. -/
def tagDistribution (elements : List DomElement) : List (String × Nat) :=
  (uniqueTags elements).map (fun t => (t, elements.countP (fun e => tagLower e == t)))

/-- `QualityMetricsData` (quality_assessment.py, lines 59-87).  The two
`*_ratio` fields of the source are named `*_share` here; they are the source
values `visible_count / element_count` and `hidden_count / element_count`
floats. -/
structure QualityMetricsData where
  element_count : Nat
  visible_count : Nat
  hidden_count : Nat
  heading_count : Nat
  unique_tag_count : Nat
  visible_share : ℚ
  hidden_share : ℚ
  unique_tags : List String
  has_headings : Bool
  tag_distribution : List (String × Nat)
  total_text_length : Nat
  avg_text_length : ℚ
  min_text_length : Nat
  max_text_length : Nat
deriving Repr, DecidableEq

/-- The `empty_metrics` record built for zero elements
(quality_assessment.py, lines 140-155). -/
def emptyMetrics : QualityMetricsData :=
  { element_count := 0, visible_count := 0, hidden_count := 0, heading_count := 0
    unique_tag_count := 0, visible_share := 0, hidden_share := 0, unique_tags := []
    has_headings := false, tag_distribution := [], total_text_length := 0
    avg_text_length := 0, min_text_length := 0, max_text_length := 0 }

/-- `QualityAssessmentResult` (quality_assessment.py, lines 90-100); warnings
are carried by their `code`. -/
structure QualityAssessmentResult where
  quality : ExtractionQuality
  warnings : List String
  metrics : QualityMetricsData
deriving Repr, DecidableEq

/-- `assess_extraction_quality` (quality_assessment.py, lines 103-301).
`none` models Python `None` (replaced by `[]` on entry).  The warning codes
are appended in source order: `LOW_ELEMENT_COUNT`, `LOW_TAG_DIVERSITY`,
`NO_HEADINGS`, `MANY_HIDDEN`, `MINIMAL_TEXT`.  The `unique_tags` metric is
`sorted(unique_tags_set)`. -/
def assess_extraction_quality (elements0 : Option (List DomElement)) :
    QualityAssessmentResult :=
  let elements := elements0.getD []
  let element_count := elements.length
  if element_count = 0 then
    { quality := .EMPTY, warnings := ["NO_ELEMENTS"], metrics := emptyMetrics }
  else
    let visible_count := visibleCount elements
    let hidden_count := element_count - visible_count
    let tag_diversity := (uniqueTags elements).length
    let hidden_share : ℚ := (hidden_count : ℚ) / (element_count : ℚ)
    let avg_text_length : ℚ := (totalTextLength elements : ℚ) / (element_count : ℚ)
    let warnings :=
      (if element_count ≤ THRESHOLD_POOR then ["LOW_ELEMENT_COUNT"] else []) ++
      (if tag_diversity < THRESHOLD_TAG_DIVERSITY ∧ element_count ≥ THRESHOLD_GOOD then
        ["LOW_TAG_DIVERSITY"] else []) ++
      (if hasHeading elements = false ∧ element_count ≥ THRESHOLD_LOW / 2 then
        ["NO_HEADINGS"] else []) ++
      (if hidden_share > THRESHOLD_HIDDEN then ["MANY_HIDDEN"] else []) ++
      (if avg_text_length < (THRESHOLD_MIN_TEXT_LENGTH : ℚ) then ["MINIMAL_TEXT"] else [])
    let quality :=
      if element_count ≤ THRESHOLD_POOR then ExtractionQuality.POOR
      else if element_count ≤ THRESHOLD_LOW then ExtractionQuality.LOW
      else if THRESHOLD_TAG_DIVERSITY ≤ tag_diversity ∧ hasHeading elements = true then
        ExtractionQuality.GOOD
      else ExtractionQuality.LOW
    { quality := quality
      warnings := warnings
      metrics :=
        { element_count := element_count
          visible_count := visible_count
          hidden_count := hidden_count
          heading_count := headingCount elements
          unique_tag_count := tag_diversity
          visible_share := (visible_count : ℚ) / (element_count : ℚ)
          hidden_share := hidden_share
          unique_tags := (uniqueTags elements).mergeSort (· ≤ ·)
          has_headings := hasHeading elements
          tag_distribution := tagDistribution elements
          total_text_length := totalTextLength elements
          avg_text_length := avg_text_length
          min_text_length := minTextLength elements
          max_text_length := maxTextLength elements } }

example :
    assess_extraction_quality none =
      ⟨.EMPTY, ["NO_ELEMENTS"], emptyMetrics⟩ := by rfl

example :
    (assess_extraction_quality (some (List.replicate 25 ⟨"div", "", true⟩))).quality =
      .LOW := by decide

example :
    "LOW_TAG_DIVERSITY" ∈
      (assess_extraction_quality (some (List.replicate 25 ⟨"div", "", true⟩))).warnings := by
  decide

/-- `VISION_MODEL_LIMITS` (quality_assessment.py, lines 344-349) with the
built-in defaults (no environment variables, no JSON config in the
repository).  Lookup failure (`dict.get(model, 0)` in
`_check_model_compatibility`) yields `0`. -/
def VISION_MODEL_LIMITS (model : String) : Int :=
  if model = "claude" then 1568
  else if model = "gemini" then 3072
  else if model = "gpt4v" then 2048
  else if model = "qwen-vl-max" then 4096
  else 0

/-- The keys of `VISION_MODEL_LIMITS`, for the membership test
`target_model in VISION_MODEL_LIMITS` (quality_assessment.py, line 497). -/
def VISION_MODEL_NAMES : List String := ["claude", "gemini", "gpt4v", "qwen-vl-max"]

/-- `VISION_MODEL_CONSTRAINTS` (quality_assessment.py, lines 353-358):
`(max_pixels, max_aspect_ratio)` per model; `none` for an unknown model, in
which case the `constraints.get(...)` of `_check_model_compatibility` defaults
both bounds to infinity and the corresponding checks cannot fail. -/
def VISION_MODEL_CONSTRAINTS (model : String) : Option (ℚ × ℚ) :=
  if model = "claude" then some (1568 * 1568, 4)
  else if model = "gemini" then some (3072 * 3072, 5)
  else if model = "gpt4v" then some (2048 * 2048, 4)
  else if model = "qwen-vl-max" then some (4096 * 4096, 6)
  else none

/-- `VISION_DEFAULT_MODEL` (quality_assessment.py, lines 361-371), built-in
default. -/
def VISION_DEFAULT_MODEL : String := "claude"

/-- `VISION_TILE_OVERLAP_PERCENT` (quality_assessment.py, lines 375-385),
built-in default `15.0`. -/
def VISION_TILE_OVERLAP_PERCENT : ℚ := 15

/-- Python `int(f)` on a float: truncation toward zero (`Int.tdiv` of the
numerator by the denominator; for the non-negative values this code feeds it,
this is the floor). -/
def pyInt (q : ℚ) : Int := Int.tdiv q.num q.den

/-- `_calculate_resize_impact` (quality_assessment.py, lines 388-396). -/
def _calculate_resize_impact (max_dimension model_limit : Int) : ℚ :=
  if max_dimension ≤ model_limit then 0
  else (((max_dimension : ℚ) - (model_limit : ℚ)) / (max_dimension : ℚ)) * 100

/-- `_calculate_recommended_dimensions` (quality_assessment.py, lines
399-412): `int(width * scale), int(height * scale)` with
`scale = target_limit / max(width, height)`; `(None, None)` when no resize is
needed. -/
def _calculate_recommended_dimensions (width height target_limit : Int) :
    Option Int × Option Int :=
  if max width height ≤ target_limit then (none, none)
  else
    ((some (pyInt ((width : ℚ) * ((target_limit : ℚ) / ((max width height : ℤ) : ℚ))))),
     (some (pyInt ((height : ℚ) * ((target_limit : ℚ) / ((max width height : ℤ) : ℚ))))))

/-- `_check_model_compatibility` (quality_assessment.py, lines 415-445),
returning only the compatibility flag (the human-readable reason string is
elided; no verified property concerns it).  The three checks run in source
order: max dimension, then total pixels, then aspect (`max/min`, taken as
`1.0` when `min(width, height) ≤ 0`). -/
def _check_model_compatibility (width height : Int) (model : String) : Bool :=
  if max width height > VISION_MODEL_LIMITS model then false
  else
    match VISION_MODEL_CONSTRAINTS model with
    | none => true
    | some (max_pixels, max_aspect) =>
      if (width * height : ℚ) > max_pixels then false
      else
        let aspect : ℚ :=
          if min width height > 0 then (max width height : ℚ) / (min width height : ℚ) else 1
        if aspect > max_aspect then false
        else true

/-- `target_model if target_model in VISION_MODEL_LIMITS else
VISION_DEFAULT_MODEL` (quality_assessment.py, line 497); Python `None` is not
a key of the dict. -/
def effectiveTarget (target_model : Option String) : String :=
  match target_model with
  | some m => if VISION_MODEL_NAMES.contains m then m else VISION_DEFAULT_MODEL
  | none => VISION_DEFAULT_MODEL

/-- `VisionAIHints` (models.py), restricted to the fields
`generate_vision_hints` computes numerically; the `tiling_reason` prose field
is elided. -/
structure VisionAIHints where
  image_width : Int
  image_height : Int
  image_size_bytes : Int
  document_width : Option Int
  document_height : Option Int
  claude_compatible : Bool
  gemini_compatible : Bool
  gpt4v_compatible : Bool
  qwen_compatible : Bool
  estimated_resize_factor : ℚ
  coordinate_accuracy : ℚ
  resize_impact_claude : ℚ
  resize_impact_gemini : ℚ
  resize_impact_gpt4v : ℚ
  resize_impact_qwen : ℚ
  recommended_width : Option Int
  recommended_height : Option Int
  tiling_recommended : Bool
  suggested_tile_count : Int
  suggested_tile_size : Option (Int × Int)
  tile_overlap_percent : ℚ
deriving Repr, DecidableEq

/-- `generate_vision_hints` (quality_assessment.py, lines 448-593).  Python
truthiness `document_width if document_width else image_width` treats both
`None` and `0` as absent.  `//` is `Int.fdiv` (floor division); with the
built-in limits `effective_tile_dim = int(target_limit * 0.85) ≥ 1332 > 0`,
so the floor divisions are by positive numbers exactly as in the source. -/
def generate_vision_hints (image_width image_height image_size_bytes : Int)
    (target_model : Option String) (document_width document_height : Option Int) :
    VisionAIHints :=
  let tiling_width := match document_width with
    | some w => if w = 0 then image_width else w
    | none => image_width
  let tiling_height := match document_height with
    | some h => if h = 0 then image_height else h
    | none => image_height
  let max_dimension := max image_width image_height
  let max_tiling_dimension := max tiling_width tiling_height
  let target_limit := VISION_MODEL_LIMITS (effectiveTarget target_model)
  let estimated_resize_factor : ℚ :=
    if max_dimension ≤ target_limit then 1
    else (target_limit : ℚ) / (max_dimension : ℚ)
  let recommended :=
    if max_dimension ≤ target_limit then ((none : Option Int), (none : Option Int))
    else _calculate_recommended_dimensions image_width image_height target_limit
  let target_exceeded := max_tiling_dimension > target_limit
  let overlap_factor : ℚ := 1 - VISION_TILE_OVERLAP_PERCENT / 100
  let effective_tile_dim : Int := pyInt ((target_limit : ℚ) * overlap_factor)
  let tiles_x : Int :=
    max 1 (Int.fdiv (tiling_width + effective_tile_dim - 1) effective_tile_dim)
  let tiles_y : Int :=
    max 1 (Int.fdiv (tiling_height + effective_tile_dim - 1) effective_tile_dim)
  { image_width := image_width
    image_height := image_height
    image_size_bytes := image_size_bytes
    document_width := document_width
    document_height := document_height
    claude_compatible := _check_model_compatibility image_width image_height "claude"
    gemini_compatible := _check_model_compatibility image_width image_height "gemini"
    gpt4v_compatible := _check_model_compatibility image_width image_height "gpt4v"
    qwen_compatible := _check_model_compatibility image_width image_height "qwen-vl-max"
    estimated_resize_factor := estimated_resize_factor
    coordinate_accuracy := estimated_resize_factor
    resize_impact_claude := _calculate_resize_impact max_dimension (VISION_MODEL_LIMITS "claude")
    resize_impact_gemini := _calculate_resize_impact max_dimension (VISION_MODEL_LIMITS "gemini")
    resize_impact_gpt4v := _calculate_resize_impact max_dimension (VISION_MODEL_LIMITS "gpt4v")
    resize_impact_qwen :=
      _calculate_resize_impact max_dimension (VISION_MODEL_LIMITS "qwen-vl-max")
    recommended_width := recommended.1
    recommended_height := recommended.2
    tiling_recommended := target_exceeded
    suggested_tile_count := if target_exceeded then tiles_x * tiles_y else 1
    suggested_tile_size :=
      if target_exceeded then
        some (min target_limit (Int.fdiv (tiling_width + tiles_x - 1) tiles_x),
              min target_limit (Int.fdiv (tiling_height + tiles_y - 1) tiles_y))
      else none
    tile_overlap_percent := VISION_TILE_OVERLAP_PERCENT }

example : (generate_vision_hints 1920 1080 500000 none none none).claude_compatible = false := by
  decide

example : _calculate_resize_impact 1920 1568 = 55 / 3 := by
  norm_num [_calculate_resize_impact]

/-- For a non-negative rational, Python truncation coincides with the floor. -/
lemma pyInt_of_nonneg {q : ℚ} (h : 0 ≤ q) : pyInt q = ⌊q⌋ := by
  rw [pyInt, Rat.floor_def]
  exact Int.tdiv_eq_ediv (Rat.num_nonneg.mpr h) (by positivity)

/-- Evaluation lemma for the floor of a concrete rational. -/
lemma floor_eval {q : ℚ} {n : ℤ} (h1 : (n : ℚ) ≤ q) (h2 : q < n + 1) : ⌊q⌋ = n :=
  Int.floor_eq_iff.mpr ⟨h1, h2⟩

/-- Evaluation lemma for `pyInt` of a concrete non-negative rational. -/
lemma pyInt_eval {q : ℚ} {n : ℤ} (h0 : 0 ≤ n) (h1 : (n : ℚ) ≤ q) (h2 : q < n + 1) :
    pyInt q = n := by
  rw [pyInt_of_nonneg (le_trans (by exact_mod_cast h0) h1)]
  exact floor_eval h1 h2

example : pyInt (245 / 6) = 40 := by
  apply pyInt_eval <;> norm_num

example : round ((245 : ℚ) / 6) = 41 := by
  rw [round_eq]
  apply floor_eval <;> norm_num

/-! ## Validation helper lemmas -/

/-- When some required dimension is non-positive (or the overlap negative),
`_validate_dimensions` reports one of the five dimension messages. -/
lemma validate_some_of_bad_dims (pw ph vw vh ov : Int)
    (h : pw ≤ 0 ∨ ph ≤ 0 ∨ vw ≤ 0 ∨ vh ≤ 0 ∨ ov < 0) :
    ∃ msg, _validate_dimensions pw ph vw vh ov = some msg ∧
      msg ∈ [s!"page_width must be positive, got {pw}",
             s!"page_height must be positive, got {ph}",
             s!"viewport_width must be positive, got {vw}",
             s!"viewport_height must be positive, got {vh}",
             s!"overlap must be non-negative, got {ov}"] := by
  unfold _validate_dimensions
  by_cases c1 : pw ≤ 0
  · rw [if_pos c1]; exact ⟨_, rfl, by simp⟩
  · rw [if_neg c1]
    by_cases c2 : ph ≤ 0
    · rw [if_pos c2]; exact ⟨_, rfl, by simp⟩
    · rw [if_neg c2]
      by_cases c3 : vw ≤ 0
      · rw [if_pos c3]; exact ⟨_, rfl, by simp⟩
      · rw [if_neg c3]
        by_cases c4 : vh ≤ 0
        · rw [if_pos c4]; exact ⟨_, rfl, by simp⟩
        · rw [if_neg c4]
          by_cases c5 : ov < 0
          · rw [if_pos c5]; exact ⟨_, rfl, by simp⟩
          · omega

/-- When the dimensions are positive and the overlap non-negative but the
overlap reaches a viewport dimension, `_validate_dimensions` reports one of
the two overlap messages. -/
lemma validate_some_of_bad_overlap (pw ph vw vh ov : Int)
    (h1 : 0 < pw) (h2 : 0 < ph) (h3 : 0 < vw) (h4 : 0 < vh) (h5 : 0 ≤ ov)
    (h : vw ≤ ov ∨ vh ≤ ov) :
    ∃ msg, _validate_dimensions pw ph vw vh ov = some msg ∧
      msg ∈ [s!"overlap ({ov}) must be less than viewport_width ({vw})",
             s!"overlap ({ov}) must be less than viewport_height ({vh})"] := by
  unfold _validate_dimensions
  rw [if_neg (by omega), if_neg (by omega), if_neg (by omega), if_neg (by omega),
    if_neg (by omega)]
  by_cases c6 : ov ≥ vw
  · rw [if_pos c6]; exact ⟨_, rfl, by simp⟩
  · rw [if_neg c6, if_pos (by omega)]; exact ⟨_, rfl, by simp⟩

/-- On fully valid input, `_validate_dimensions` passes. -/
lemma validate_none_of_valid (pw ph vw vh ov : Int)
    (h1 : 0 < pw) (h2 : 0 < ph) (h3 : 0 < vw) (h4 : 0 < vh) (h5 : 0 ≤ ov)
    (h6 : ov < vw) (h7 : ov < vh) :
    _validate_dimensions pw ph vw vh ov = none := by
  unfold _validate_dimensions
  rw [if_neg (by omega), if_neg (by omega), if_neg (by omega), if_neg (by omega),
    if_neg (by omega), if_neg (by omega), if_neg (by omega)]

/-- `calculate_tile_grid` propagates a validation failure unchanged. -/
lemma calculate_tile_grid_error (ph vh ov : Int) (pwo vwo : Option Int) (msg : String)
    (h : _validate_dimensions (pwo.getD (vwo.getD 1200)) ph (vwo.getD 1200) vh ov = some msg) :
    calculate_tile_grid ph vh ov pwo vwo = .error msg := by
  unfold calculate_tile_grid
  rw [h]

/-- `calculate_tile_grid` on validated input runs the grid loops. -/
lemma calculate_tile_grid_ok (ph vh ov : Int) (pwo vwo : Option Int)
    (h : _validate_dimensions (pwo.getD (vwo.getD 1200)) ph (vwo.getD 1200) vh ov = none) :
    calculate_tile_grid ph vh ov pwo vwo =
      .ok (tileGridLoop ph.toNat (pwo.getD (vwo.getD 1200)).toNat ph.toNat
        (vwo.getD 1200).toNat vh.toNat ov.toNat 0 0 0) := by
  unfold calculate_tile_grid
  rw [h]

/-! ## Claim theorems: error handling and the leaf helpers -/

/-- Claim C7: `calculate_tile_grid` rejects invalid input before any tile is
generated.  A non-positive page or tile dimension (or a negative overlap)
yields one of the five invalid-dimension `ValueError` messages; with positive
dimensions and non-negative overlap, an overlap reaching a viewport dimension
yields one of the two invalid-overlap messages; in either case the result is
an error, so no tile list is ever produced.  In particular
`viewport_height = 800` with `overlap = 800` is rejected with the
invalid-overlap message. -/
theorem calculate_tile_grid_rejects_invalid_input :
    (∀ (ph vh ov : Int) (pwo vwo : Option Int) (pw vw : Int),
      pw = pwo.getD (vwo.getD 1200) → vw = vwo.getD 1200 →
      (pw ≤ 0 ∨ ph ≤ 0 ∨ vw ≤ 0 ∨ vh ≤ 0 ∨ ov < 0) →
      ∃ msg, calculate_tile_grid ph vh ov pwo vwo = .error msg ∧
        msg ∈ [s!"page_width must be positive, got {pw}",
               s!"page_height must be positive, got {ph}",
               s!"viewport_width must be positive, got {vw}",
               s!"viewport_height must be positive, got {vh}",
               s!"overlap must be non-negative, got {ov}"]) ∧
    (∀ (ph vh ov : Int) (pwo vwo : Option Int) (pw vw : Int),
      pw = pwo.getD (vwo.getD 1200) → vw = vwo.getD 1200 →
      0 < pw → 0 < ph → 0 < vw → 0 < vh → 0 ≤ ov → (vw ≤ ov ∨ vh ≤ ov) →
      ∃ msg, calculate_tile_grid ph vh ov pwo vwo = .error msg ∧
        msg ∈ [s!"overlap ({ov}) must be less than viewport_width ({vw})",
               s!"overlap ({ov}) must be less than viewport_height ({vh})"]) ∧
    (∀ (ph vh ov : Int) (pwo vwo : Option Int) (msg : String),
      calculate_tile_grid ph vh ov pwo vwo = .error msg →
      ∀ tiles, calculate_tile_grid ph vh ov pwo vwo ≠ .ok tiles) ∧
    calculate_tile_grid 3000 800 800 none none =
      .error "overlap (800) must be less than viewport_height (800)" := by
  refine ⟨?_, ?_, ?_, ?_⟩
  · intro ph vh ov pwo vwo pw vw hpw hvw h
    obtain ⟨msg, hv, hm⟩ :=
      validate_some_of_bad_dims pw ph vw vh ov h
    exact ⟨msg, calculate_tile_grid_error ph vh ov pwo vwo msg (hpw ▸ hvw ▸ hv), hm⟩
  · intro ph vh ov pwo vwo pw vw hpw hvw h1 h2 h3 h4 h5 h
    obtain ⟨msg, hv, hm⟩ :=
      validate_some_of_bad_overlap pw ph vw vh ov h1 h2 h3 h4 h5 h
    exact ⟨msg, calculate_tile_grid_error ph vh ov pwo vwo msg (hpw ▸ hvw ▸ hv), hm⟩
  · intro ph vh ov pwo vwo msg h tiles hok
    rw [h] at hok
    exact Except.noConfusion hok
  · rfl

/-- Claim C8: the coordinate mapper adds the tile offset to `x` and `y`,
copies `width` and `height` (returning a new rectangle — the embedding is
pure, so the input is never mutated), subtracting the offset from the mapped
rectangle restores the original exactly, and the batch variant applies the
same mapping to every element of a list against one shared tile. -/
theorem adjust_element_coordinates_roundtrip (element_rect : Rect) (tile_bounds : TileBounds)
    (elements : List Rect) :
    adjust_element_coordinates element_rect tile_bounds =
      ⟨element_rect.x + tile_bounds.x, element_rect.y + tile_bounds.y,
       element_rect.width, element_rect.height⟩ ∧
    (⟨(adjust_element_coordinates element_rect tile_bounds).x - tile_bounds.x,
      (adjust_element_coordinates element_rect tile_bounds).y - tile_bounds.y,
      (adjust_element_coordinates element_rect tile_bounds).width,
      (adjust_element_coordinates element_rect tile_bounds).height⟩ : Rect) = element_rect ∧
    adjust_elements_batch elements tile_bounds =
      elements.map (fun el => adjust_element_coordinates el tile_bounds) ∧
    (adjust_elements_batch elements tile_bounds).map
      (fun a => (⟨a.x - tile_bounds.x, a.y - tile_bounds.y, a.width, a.height⟩ : Rect)) =
      elements := by
  refine ⟨rfl, ?_, rfl, ?_⟩
  · cases element_rect
    simp [adjust_element_coordinates]
  · rw [adjust_elements_batch, List.map_map]
    have h : ((fun a : Rect =>
          (⟨a.x - tile_bounds.x, a.y - tile_bounds.y, a.width, a.height⟩ : Rect)) ∘
        fun el => adjust_element_coordinates el tile_bounds) = fun a => a := by
      funext r
      cases r
      simp [adjust_element_coordinates]
    rw [h]
    simp

/-- Claim C10: `calculate_per_tile_wait` divides by `tile_count` without a
guard: with a positive `wait_for_timeout` and `tile_count = 0` it raises
`ZeroDivisionError`; with `tile_count ≥ 1` it returns
`max(min_wait, wait_for_timeout // tile_count)`; and with
`wait_for_timeout ≤ 0` it returns `min_wait` without dividing, for any
`tile_count`. -/
theorem calculate_per_tile_wait_spec (wait_for_timeout tile_count min_wait : Int) :
    (wait_for_timeout ≤ 0 →
      calculate_per_tile_wait wait_for_timeout tile_count min_wait = .ok min_wait) ∧
    (0 < wait_for_timeout → tile_count = 0 →
      calculate_per_tile_wait wait_for_timeout tile_count min_wait =
        .error "integer division or modulo by zero") ∧
    (0 < wait_for_timeout → 1 ≤ tile_count →
      calculate_per_tile_wait wait_for_timeout tile_count min_wait =
        .ok (max min_wait (Int.fdiv wait_for_timeout tile_count))) := by
  refine ⟨?_, ?_, ?_⟩
  · intro h
    rw [calculate_per_tile_wait, if_pos h]
  · intro h h0
    rw [calculate_per_tile_wait, if_neg (by omega), if_pos h0]
  · intro h h1
    rw [calculate_per_tile_wait, if_neg (by omega), if_neg (by omega)]

/-- Claim C9: `apply_vision_preset` resolves names case-insensitively via
lowercasing, returns the preset bundle with each explicitly supplied field
overridden and the others kept (a fresh record, so the preset table is never
modified — the embedding is pure), rejects unknown names with a message
listing all valid preset names, and in particular returns
`{1568, 1568, 50}` for `"claude"` and `{1000, 1568, 50}` under the
`tile_width = 1000` override. -/
theorem apply_vision_preset_spec :
    (∀ (preset_name : String) (tw th ov : Option Int) (p : PresetConfig),
      VISION_AI_PRESETS.lookup (pyLower preset_name) = some p →
      apply_vision_preset preset_name tw th ov =
        .ok ⟨tw.getD p.tile_width, th.getD p.tile_height, ov.getD p.overlap⟩) ∧
    (∀ (preset_name : String) (tw th ov : Option Int),
      VISION_AI_PRESETS.lookup (pyLower preset_name) = none →
      apply_vision_preset preset_name tw th ov =
        .error (s!"Unknown Vision AI preset {preset_name}. Valid options: " ++
          String.intercalate ", " (VISION_AI_PRESETS.map Prod.fst))) ∧
    apply_vision_preset "claude" none none none = .ok ⟨1568, 1568, 50⟩ ∧
    apply_vision_preset "claude" (some 1000) none none = .ok ⟨1000, 1568, 50⟩ ∧
    apply_vision_preset "CLAUDE" none none none = .ok ⟨1568, 1568, 50⟩ ∧
    apply_vision_preset "bogus" none none none =
      .error "Unknown Vision AI preset bogus. Valid options: claude, gemini, gpt4v" := by
  refine ⟨?_, ?_, rfl, rfl, rfl, rfl⟩
  · intro preset_name tw th ov p h
    rw [apply_vision_preset, h]
  · intro preset_name tw th ov h
    rw [apply_vision_preset, h]

/-! ## Projection lemmas for `generate_vision_hints` -/

/-- The resize factor is `1` within the target limit, else `limit / max(w,h)`. -/
lemma generate_vision_hints_factor (w h sb : Int) (tm : Option String) (dw dh : Option Int) :
    (generate_vision_hints w h sb tm dw dh).estimated_resize_factor =
      if max w h ≤ VISION_MODEL_LIMITS (effectiveTarget tm) then 1
      else (VISION_MODEL_LIMITS (effectiveTarget tm) : ℚ) / ((max w h : ℤ) : ℚ) := rfl

/-- `coordinate_accuracy` is defined to equal the resize factor. -/
lemma generate_vision_hints_accuracy (w h sb : Int) (tm : Option String) (dw dh : Option Int) :
    (generate_vision_hints w h sb tm dw dh).coordinate_accuracy =
      (generate_vision_hints w h sb tm dw dh).estimated_resize_factor := rfl

/-- The recommended-dimension pair of the hints. -/
lemma generate_vision_hints_recommended (w h sb : Int) (tm : Option String) (dw dh : Option Int) :
    ((generate_vision_hints w h sb tm dw dh).recommended_width,
     (generate_vision_hints w h sb tm dw dh).recommended_height) =
      if max w h ≤ VISION_MODEL_LIMITS (effectiveTarget tm) then (none, none)
      else _calculate_recommended_dimensions w h (VISION_MODEL_LIMITS (effectiveTarget tm)) := rfl

/-- Each per-model resize impact applies `_calculate_resize_impact` to that
own limit of that model, independently of the target model. -/
lemma generate_vision_hints_impacts (w h sb : Int) (tm : Option String) (dw dh : Option Int) :
    (generate_vision_hints w h sb tm dw dh).resize_impact_claude =
      _calculate_resize_impact (max w h) 1568 ∧
    (generate_vision_hints w h sb tm dw dh).resize_impact_gemini =
      _calculate_resize_impact (max w h) 3072 ∧
    (generate_vision_hints w h sb tm dw dh).resize_impact_gpt4v =
      _calculate_resize_impact (max w h) 2048 ∧
    (generate_vision_hints w h sb tm dw dh).resize_impact_qwen =
      _calculate_resize_impact (max w h) 4096 := ⟨rfl, rfl, rfl, rfl⟩

/-- Claim C5: the resize impact of every model is `0` when `max(w,h)` is
within the limit of that model and `(max(w,h) - limit) / max(w,h) * 100` otherwise,
computed for every model with its own built-in limit independently of the
target model; and for `generate_vision_hints(1920, 1080)` with the default
target, `claude_compatible = false`,
`resize_impact_claude = (1920-1568)/1920*100 = 55/3 ≈ 18.33`,
`estimated_resize_factor = 1568/1920 = 49/60 ≈ 0.8167`, and
`coordinate_accuracy` equals the resize factor. -/
theorem generate_vision_hints_resize_impact_spec :
    (∀ (w h sb : Int) (tm : Option String) (dw dh : Option Int),
      (generate_vision_hints w h sb tm dw dh).resize_impact_claude =
        (if max w h ≤ 1568 then 0 else (((max w h : ℤ) : ℚ) - 1568) / ((max w h : ℤ) : ℚ) * 100) ∧
      (generate_vision_hints w h sb tm dw dh).resize_impact_gemini =
        (if max w h ≤ 3072 then 0 else (((max w h : ℤ) : ℚ) - 3072) / ((max w h : ℤ) : ℚ) * 100) ∧
      (generate_vision_hints w h sb tm dw dh).resize_impact_gpt4v =
        (if max w h ≤ 2048 then 0 else (((max w h : ℤ) : ℚ) - 2048) / ((max w h : ℤ) : ℚ) * 100) ∧
      (generate_vision_hints w h sb tm dw dh).resize_impact_qwen =
        (if max w h ≤ 4096 then 0 else (((max w h : ℤ) : ℚ) - 4096) / ((max w h : ℤ) : ℚ) * 100)) ∧
    (generate_vision_hints 1920 1080 500000 none none none).claude_compatible = false ∧
    (generate_vision_hints 1920 1080 500000 none none none).resize_impact_claude = 55 / 3 ∧
    (generate_vision_hints 1920 1080 500000 none none none).estimated_resize_factor = 49 / 60 ∧
    (generate_vision_hints 1920 1080 500000 none none none).coordinate_accuracy = 49 / 60 := by
  have himp : ∀ (w h sb : Int) (tm : Option String) (dw dh : Option Int) (lim : Int),
      _calculate_resize_impact (max w h) lim =
        (if max w h ≤ lim then 0
          else (((max w h : ℤ) : ℚ) - (lim : ℚ)) / ((max w h : ℤ) : ℚ) * 100) := by
    intro w h sb tm dw dh lim
    rw [_calculate_resize_impact]
  refine ⟨?_, by decide, ?_, ?_, ?_⟩
  · intro w h sb tm dw dh
    obtain ⟨h1, h2, h3, h4⟩ := generate_vision_hints_impacts w h sb tm dw dh
    refine ⟨?_, ?_, ?_, ?_⟩
    · rw [h1, himp w h sb tm dw dh 1568]; norm_num
    · rw [h2, himp w h sb tm dw dh 3072]; norm_num
    · rw [h3, himp w h sb tm dw dh 2048]; norm_num
    · rw [h4, himp w h sb tm dw dh 4096]; norm_num
  · rw [(generate_vision_hints_impacts 1920 1080 500000 none none none).1,
      show max (1920 : ℤ) 1080 = 1920 from rfl, _calculate_resize_impact]
    norm_num
  · rw [generate_vision_hints_factor,
      show VISION_MODEL_LIMITS (effectiveTarget none) = 1568 from rfl,
      show max (1920 : ℤ) 1080 = 1920 from rfl, if_neg (by norm_num)]
    norm_num
  · rw [generate_vision_hints_accuracy, generate_vision_hints_factor,
      show VISION_MODEL_LIMITS (effectiveTarget none) = 1568 from rfl,
      show max (1920 : ℤ) 1080 = 1920 from rfl, if_neg (by norm_num)]
    norm_num

/-- Claim C3, counterexample: at image dimensions 1920 x 50 a resize is
needed (`max = 1920` exceeds the default target limit 1568), the code
recommends height `int(50 * 1568/1920) = 40` (truncation), while rounding as
the claim states gives `round(50 * 1568/1920) = round(40.8333...) = 41`, so
the recommended height is not `round(dim * resize_factor)`. -/
theorem generate_vision_hints_recommended_not_rounded :
    VISION_MODEL_LIMITS (effectiveTarget none) < max (1920 : ℤ) 50 ∧
    (generate_vision_hints 1920 50 0 none none none).recommended_height = some 40 ∧
    round ((50 : ℚ) * (generate_vision_hints 1920 50 0 none none none).estimated_resize_factor) =
      41 ∧
    (generate_vision_hints 1920 50 0 none none none).recommended_height ≠
      some (round ((50 : ℚ) *
        (generate_vision_hints 1920 50 0 none none none).estimated_resize_factor)) := by
  have hfac : (generate_vision_hints 1920 50 0 none none none).estimated_resize_factor =
      (1568 : ℚ) / 1920 := by
    rw [generate_vision_hints_factor,
      show VISION_MODEL_LIMITS (effectiveTarget none) = 1568 from rfl,
      show max (1920 : ℤ) 50 = 1920 from rfl, if_neg (by norm_num)]
    norm_num
  have hrec : (generate_vision_hints 1920 50 0 none none none).recommended_height = some 40 := by
    have hp := generate_vision_hints_recommended 1920 50 0 none none none
    rw [show VISION_MODEL_LIMITS (effectiveTarget none) = 1568 from rfl,
      show max (1920 : ℤ) 50 = 1920 from rfl, if_neg (by norm_num),
      _calculate_recommended_dimensions,
      show max (1920 : ℤ) 50 = 1920 from rfl, if_neg (by norm_num)] at hp
    have h2 := congrArg Prod.snd hp
    simp only at h2
    rw [h2]
    congr 1
    apply pyInt_eval (n := 40) (by norm_num) (by push_cast; norm_num) (by push_cast; norm_num)
  have hround :
      round ((50 : ℚ) *
        (generate_vision_hints 1920 50 0 none none none).estimated_resize_factor) = 41 := by
    rw [hfac, round_eq]
    apply floor_eval <;> push_cast <;> norm_num
  refine ⟨by norm_num [VISION_MODEL_LIMITS, effectiveTarget, VISION_DEFAULT_MODEL], hrec, hround,
    ?_⟩
  rw [hrec, hround]
  simp

/-- Claim C3, amended: whenever a resize is needed
(`max(w,h) > target limit`), the recommended dimensions are the
**truncations** `int(dim * resize_factor)` per axis (Python `int()`, i.e.
floor for these non-negative values — not `round`), with
`resize_factor = target_limit / max(w,h)`; when no resize is needed, no
recommended dimensions are returned. -/
theorem generate_vision_hints_recommended_dims (w h sb : Int) (tm : Option String)
    (dw dh : Option Int) :
    (max w h ≤ VISION_MODEL_LIMITS (effectiveTarget tm) →
      (generate_vision_hints w h sb tm dw dh).recommended_width = none ∧
      (generate_vision_hints w h sb tm dw dh).recommended_height = none) ∧
    (VISION_MODEL_LIMITS (effectiveTarget tm) < max w h →
      (generate_vision_hints w h sb tm dw dh).estimated_resize_factor =
        (VISION_MODEL_LIMITS (effectiveTarget tm) : ℚ) / ((max w h : ℤ) : ℚ) ∧
      (generate_vision_hints w h sb tm dw dh).recommended_width =
        some (pyInt ((w : ℚ) *
          (generate_vision_hints w h sb tm dw dh).estimated_resize_factor)) ∧
      (generate_vision_hints w h sb tm dw dh).recommended_height =
        some (pyInt ((h : ℚ) *
          (generate_vision_hints w h sb tm dw dh).estimated_resize_factor))) := by
  constructor
  · intro hle
    have hp := generate_vision_hints_recommended w h sb tm dw dh
    rw [if_pos hle] at hp
    exact ⟨congrArg Prod.fst hp, congrArg Prod.snd hp⟩
  · intro hlt
    have hfac : (generate_vision_hints w h sb tm dw dh).estimated_resize_factor =
        (VISION_MODEL_LIMITS (effectiveTarget tm) : ℚ) / ((max w h : ℤ) : ℚ) := by
      rw [generate_vision_hints_factor, if_neg (not_le.mpr hlt)]
    have hp := generate_vision_hints_recommended w h sb tm dw dh
    rw [if_neg (not_le.mpr hlt), _calculate_recommended_dimensions,
      if_neg (not_le.mpr hlt)] at hp
    rw [Prod.mk.injEq] at hp
    exact ⟨hfac, by rw [hfac, hp.1], by rw [hfac, hp.2]⟩

/-! ## Quality classifier lemmas -/

/-- Membership in a conditional singleton list. -/
lemma mem_ite_singleton {c : Prop} [Decidable c] (a b : String) :
    (a ∈ (if c then [b] else [])) ↔ (c ∧ a = b) := by
  by_cases h : c <;> simp [h]

/-- The quality tier computed for a non-empty element list. -/
lemma assess_quality_of_pos (elements0 : Option (List DomElement))
    (h : (elements0.getD []).length ≠ 0) :
    (assess_extraction_quality elements0).quality =
      (if (elements0.getD []).length ≤ THRESHOLD_POOR then ExtractionQuality.POOR
       else if (elements0.getD []).length ≤ THRESHOLD_LOW then ExtractionQuality.LOW
       else if THRESHOLD_TAG_DIVERSITY ≤ (uniqueTags (elements0.getD [])).length ∧
           hasHeading (elements0.getD []) = true then ExtractionQuality.GOOD
       else ExtractionQuality.LOW) := by
  simp only [assess_extraction_quality]
  rw [if_neg h]

/-- The warning codes computed for a non-empty element list, in source order. -/
lemma assess_warnings_of_pos (elements0 : Option (List DomElement))
    (h : (elements0.getD []).length ≠ 0) :
    (assess_extraction_quality elements0).warnings =
      (if (elements0.getD []).length ≤ THRESHOLD_POOR then ["LOW_ELEMENT_COUNT"] else []) ++
      (if (uniqueTags (elements0.getD [])).length < THRESHOLD_TAG_DIVERSITY ∧
          (elements0.getD []).length ≥ THRESHOLD_GOOD then ["LOW_TAG_DIVERSITY"] else []) ++
      (if hasHeading (elements0.getD []) = false ∧
          (elements0.getD []).length ≥ THRESHOLD_LOW / 2 then ["NO_HEADINGS"] else []) ++
      (if (((elements0.getD []).length - visibleCount (elements0.getD []) : ℕ) : ℚ) /
            ((elements0.getD []).length : ℚ) > THRESHOLD_HIDDEN then ["MANY_HIDDEN"]
        else []) ++
      (if (totalTextLength (elements0.getD []) : ℚ) / ((elements0.getD []).length : ℚ) <
          (THRESHOLD_MIN_TEXT_LENGTH : ℚ) then ["MINIMAL_TEXT"] else []) := by
  simp only [assess_extraction_quality]
  rw [if_neg h]

/-- Claim C4: `assess_extraction_quality` is total (the embedding is a total
function, here applied to `none` and to lists of every length) and classifies
by element count: `0 → EMPTY` with a `NO_ELEMENTS` warning and zeroed
metrics; `1..4 → POOR` with a `LOW_ELEMENT_COUNT` warning; `5..20 → LOW`;
`≥ 21 → GOOD` iff at least `3` distinct case-insensitive tags and some
heading `h1`-`h6` are present, and otherwise `LOW`. -/
theorem assess_extraction_quality_classification :
    (∀ elements0 : Option (List DomElement),
      (elements0.getD []).length = 0 →
      assess_extraction_quality elements0 = ⟨.EMPTY, ["NO_ELEMENTS"], emptyMetrics⟩) ∧
    (∀ elements0 : Option (List DomElement),
      1 ≤ (elements0.getD []).length → (elements0.getD []).length ≤ 4 →
      (assess_extraction_quality elements0).quality = .POOR ∧
      "LOW_ELEMENT_COUNT" ∈ (assess_extraction_quality elements0).warnings) ∧
    (∀ elements0 : Option (List DomElement),
      5 ≤ (elements0.getD []).length → (elements0.getD []).length ≤ 20 →
      (assess_extraction_quality elements0).quality = .LOW) ∧
    (∀ elements0 : Option (List DomElement),
      21 ≤ (elements0.getD []).length →
      ((assess_extraction_quality elements0).quality = .GOOD ↔
        (3 ≤ (uniqueTags (elements0.getD [])).length ∧
          hasHeading (elements0.getD []) = true)) ∧
      ((assess_extraction_quality elements0).quality = .GOOD ∨
        (assess_extraction_quality elements0).quality = .LOW)) ∧
    assess_extraction_quality none = ⟨.EMPTY, ["NO_ELEMENTS"], emptyMetrics⟩ := by
  refine ⟨?_, ?_, ?_, ?_, rfl⟩
  · intro e0 h
    simp only [assess_extraction_quality]
    rw [if_pos h]
  · intro e0 h1 h2
    constructor
    · rw [assess_quality_of_pos e0 (by omega), if_pos (by simp [THRESHOLD_POOR]; omega)]
    · rw [assess_warnings_of_pos e0 (by omega),
        if_pos (show (e0.getD []).length ≤ THRESHOLD_POOR by simp [THRESHOLD_POOR]; omega)]
      simp [List.mem_append]
  · intro e0 h1 h2
    rw [assess_quality_of_pos e0 (by omega), if_neg (by simp [THRESHOLD_POOR]; omega),
      if_pos (by simp [THRESHOLD_LOW]; omega)]
  · intro e0 h1
    rw [assess_quality_of_pos e0 (by omega), if_neg (by simp [THRESHOLD_POOR]; omega),
      if_neg (by simp [THRESHOLD_LOW]; omega)]
    by_cases hc : THRESHOLD_TAG_DIVERSITY ≤ (uniqueTags (e0.getD [])).length ∧
        hasHeading (e0.getD []) = true
    · rw [if_pos hc]
      exact ⟨⟨fun _ => by simpa [THRESHOLD_TAG_DIVERSITY] using hc, fun _ => rfl⟩, .inl rfl⟩
    · rw [if_neg hc]
      refine ⟨⟨fun hgood => absurd hgood (by simp), fun hcond => ?_⟩, .inr rfl⟩
      exact absurd (by simpa [THRESHOLD_TAG_DIVERSITY] using hcond) hc

/-- Claim C6: for a non-empty element list the four quality warnings fire
independently of the tier, each exactly under its own condition:
`LOW_TAG_DIVERSITY` iff fewer than 3 unique (case-insensitive) tags and at
least 21 elements; `NO_HEADINGS` iff no `h1`-`h6` tag and at least 10
elements; `MANY_HIDDEN` iff the hidden-element share exceeds 1/2;
`MINIMAL_TEXT` iff the average text length is below 10 characters. -/
theorem assess_extraction_quality_warning_conditions (elements0 : Option (List DomElement))
    (h : 1 ≤ (elements0.getD []).length) :
    ("LOW_TAG_DIVERSITY" ∈ (assess_extraction_quality elements0).warnings ↔
      ((uniqueTags (elements0.getD [])).length < 3 ∧ 21 ≤ (elements0.getD []).length)) ∧
    ("NO_HEADINGS" ∈ (assess_extraction_quality elements0).warnings ↔
      (hasHeading (elements0.getD []) = false ∧ 10 ≤ (elements0.getD []).length)) ∧
    ("MANY_HIDDEN" ∈ (assess_extraction_quality elements0).warnings ↔
      ((((elements0.getD []).length - visibleCount (elements0.getD []) : ℕ) : ℚ) /
          ((elements0.getD []).length : ℚ) > 1 / 2)) ∧
    ("MINIMAL_TEXT" ∈ (assess_extraction_quality elements0).warnings ↔
      ((totalTextLength (elements0.getD []) : ℚ) / ((elements0.getD []).length : ℚ) < 10)) := by
  rw [assess_warnings_of_pos elements0 (by omega)]
  refine ⟨?_, ?_, ?_, ?_⟩ <;>
  · simp only [List.mem_append, mem_ite_singleton, THRESHOLD_POOR, THRESHOLD_TAG_DIVERSITY,
      THRESHOLD_GOOD, THRESHOLD_LOW, THRESHOLD_HIDDEN, THRESHOLD_MIN_TEXT_LENGTH]
    simp [ge_iff_le]

/-- Witness for C6: 25 elements all tagged `"div"` satisfy the
`LOW_TAG_DIVERSITY` condition (1 unique tag, 25 ≥ 21), the warning fires, and
the assigned tier is `LOW`. -/
theorem assess_extraction_quality_warning_conditions_witness :
    ((uniqueTags ((some (List.replicate 25 (⟨"div", "", true⟩ : DomElement))).getD
        [])).length < 3 ∧
      21 ≤ ((some (List.replicate 25 (⟨"div", "", true⟩ : DomElement))).getD []).length) ∧
    "LOW_TAG_DIVERSITY" ∈
      (assess_extraction_quality (some (List.replicate 25 ⟨"div", "", true⟩))).warnings ∧
    (assess_extraction_quality (some (List.replicate 25 ⟨"div", "", true⟩))).quality =
      .LOW := by
  have hiff := (assess_extraction_quality_warning_conditions
    (some (List.replicate 25 ⟨"div", "", true⟩)) (by decide)).1
  exact ⟨by decide, hiff.mpr (by decide), by decide⟩

/-! ## Structural lemmas about the tiling loops -/

/-- Every tile emitted by the row loop carries the per-row `y`, `tile_height`
and `row`, starts strictly inside the page, has the clipped width
`min viewport_width (page_width - x)` computed from its own start, occupies a
column at or after the starting column, and the tile in the starting column
(if any) starts exactly at the starting scan position. -/
lemma tileRowLoop_mem (pw vw ov y th row : Nat) :
    ∀ (fuel idx x col : Nat) (t : TileBounds),
      t ∈ tileRowLoop fuel pw vw ov y th row idx x col →
      t.y = y ∧ t.height = th ∧ t.row = row ∧ t.x < pw ∧
        t.width = min vw (pw - t.x) ∧ col ≤ t.column ∧ (t.column = col → t.x = x) := by
  intro fuel
  induction fuel with
  | zero => intro idx x col t ht; simp [tileRowLoop] at ht
  | succ fuel ih =>
    intro idx x col t ht
    simp only [tileRowLoop] at ht
    by_cases hx : x < pw
    · rw [if_pos hx] at ht
      by_cases hbreak : x + min vw (pw - x) ≥ pw
      · rw [if_pos hbreak] at ht
        simp only [List.mem_singleton] at ht
        subst ht
        exact ⟨rfl, rfl, rfl, hx, rfl, le_refl _, fun _ => rfl⟩
      · rw [if_neg hbreak] at ht
        rcases List.mem_cons.mp ht with h1 | h2
        · subst h1
          exact ⟨rfl, rfl, rfl, hx, rfl, le_refl _, fun _ => rfl⟩
        · obtain ⟨a1, a2, a3, a4, a5, a6, a7⟩ := ih (idx + 1) (x + (vw - ov)) (col + 1) t h2
          exact ⟨a1, a2, a3, a4, a5, by omega, fun hc => absurd hc (by omega)⟩
    · rw [if_neg hx] at ht
      simp at ht

/-- Coverage of one row: with positive step and enough fuel, every horizontal
position from the scan start to the page edge lies inside some emitted tile. -/
lemma tileRowLoop_cover (pw vw ov y th row : Nat) (hov : ov < vw) :
    ∀ (fuel idx x col px : Nat), x < pw → pw ≤ x + fuel → x ≤ px → px < pw →
      ∃ t ∈ tileRowLoop fuel pw vw ov y th row idx x col,
        t.x ≤ px ∧ px < t.x + t.width := by
  intro fuel
  induction fuel with
  | zero => intro idx x col px hx hf _ _; omega
  | succ fuel ih =>
    intro idx x col px hx hf hxp hpp
    simp only [tileRowLoop]
    rw [if_pos hx]
    by_cases hbreak : x + min vw (pw - x) ≥ pw
    · rw [if_pos hbreak]
      refine ⟨_, List.mem_singleton_self _, ?_, ?_⟩ <;> simp <;> omega
    · rw [if_neg hbreak]
      by_cases hcov : px < x + min vw (pw - x)
      · refine ⟨_, List.mem_cons_self _ _, ?_, ?_⟩ <;> simp <;> omega
      · have htw : min vw (pw - x) = vw := by omega
        obtain ⟨t, ht, h1, h2⟩ := ih (idx + 1) (x + (vw - ov)) (col + 1) px
          (by omega) (by omega) (by omega) hpp
        exact ⟨t, List.mem_cons_of_mem _ ht, h1, h2⟩

/-- Two tiles of one row occupying consecutive columns: the earlier one is a
full-width tile (its iteration continued), and the later one starts exactly
one step `viewport_width - overlap` after it, strictly inside the page. -/
lemma tileRowLoop_adjacent (pw vw ov y th row : Nat) :
    ∀ (fuel idx x col : Nat) (t1 t2 : TileBounds),
      t1 ∈ tileRowLoop fuel pw vw ov y th row idx x col →
      t2 ∈ tileRowLoop fuel pw vw ov y th row idx x col →
      t2.column = t1.column + 1 →
      t1.width = vw ∧ t2.x = t1.x + (vw - ov) ∧ t1.x + vw < pw := by
  intro fuel
  induction fuel with
  | zero => intro idx x col t1 t2 h1 _ _; simp [tileRowLoop] at h1
  | succ fuel ih =>
    intro idx x col t1 t2 h1 h2 hcol
    simp only [tileRowLoop] at h1 h2
    by_cases hx : x < pw
    · rw [if_pos hx] at h1 h2
      by_cases hbreak : x + min vw (pw - x) ≥ pw
      · rw [if_pos hbreak] at h1 h2
        simp only [List.mem_singleton] at h1 h2
        subst h1; subst h2
        simp at hcol
      · rw [if_neg hbreak] at h1 h2
        have htw : min vw (pw - x) = vw := by omega
        rcases List.mem_cons.mp h1 with e1 | m1
        · rcases List.mem_cons.mp h2 with e2 | m2
          · subst e1; subst e2; simp at hcol
          · subst e1
            obtain ⟨_, _, _, _, _, _, hcx⟩ :=
              tileRowLoop_mem pw vw ov y th row fuel (idx + 1) (x + (vw - ov)) (col + 1) t2 m2
            have hx2 : t2.x = x + (vw - ov) := hcx (by simpa using hcol)
            refine ⟨by simpa using htw, ?_, ?_⟩
            · simp only [hx2]
            · have hlt : x + vw < pw := by omega
              simpa using hlt
        · rcases List.mem_cons.mp h2 with e2 | m2
          · subst e2
            obtain ⟨_, _, _, _, _, hcl, _⟩ :=
              tileRowLoop_mem pw vw ov y th row fuel (idx + 1) (x + (vw - ov)) (col + 1) t1 m1
            simp at hcol
            omega
          · exact ih (idx + 1) (x + (vw - ov)) (col + 1) t1 t2 m1 m2 hcol
    · rw [if_neg hx] at h1
      simp at h1

/-- Every tile emitted by the grid loop starts strictly above the page
bottom, has the clipped height `min viewport_height (page_height - y)`
computed from its own `y`, stays inside the page horizontally, sits in a row
at or after the starting row, and a tile of the starting row (if any) has the
starting `y`. -/
lemma tileGridLoop_mem (pw ph vw vh ov : Nat) :
    ∀ (fuel y row idx : Nat) (t : TileBounds),
      t ∈ tileGridLoop fuel pw ph vw vh ov y row idx →
      t.y < ph ∧ t.height = min vh (ph - t.y) ∧ t.x + t.width ≤ pw ∧
        row ≤ t.row ∧ (t.row = row → t.y = y) := by
  intro fuel
  induction fuel with
  | zero => intro y row idx t ht; simp [tileGridLoop] at ht
  | succ fuel ih =>
    intro y row idx t ht
    simp only [tileGridLoop] at ht
    by_cases hy : y < ph
    · rw [if_pos hy] at ht
      by_cases hbreak : y + min vh (ph - y) ≥ ph
      · rw [if_pos hbreak] at ht
        obtain ⟨a1, a2, a3, a4, a5, a6, a7⟩ :=
          tileRowLoop_mem pw vw ov y (min vh (ph - y)) row pw idx 0 0 t ht
        refine ⟨a1 ▸ hy, ?_, by omega, le_of_eq a3.symm, fun _ => a1⟩
        rw [a1, a2]
      · rw [if_neg hbreak] at ht
        rcases List.mem_append.mp ht with hrow | hrest
        · obtain ⟨a1, a2, a3, a4, a5, a6, a7⟩ :=
            tileRowLoop_mem pw vw ov y (min vh (ph - y)) row pw idx 0 0 t hrow
          refine ⟨a1 ▸ hy, ?_, by omega, le_of_eq a3.symm, fun _ => a1⟩
          rw [a1, a2]
        · obtain ⟨b1, b2, b3, b4, b5⟩ := ih (y + (vh - ov)) (row + 1) _ t hrest
          exact ⟨b1, b2, b3, by omega, fun hr => absurd hr (by omega)⟩
    · rw [if_neg hy] at ht
      simp at ht

/-- Coverage of the grid: with positive steps and enough fuel, every page
point at or below the scan position is inside some emitted tile. -/
lemma tileGridLoop_cover (pw ph vw vh ov : Nat) (hovw : ov < vw) (hovh : ov < vh)
    (hpw : 0 < pw) :
    ∀ (fuel y row idx px py : Nat), y < ph → ph ≤ y + fuel → y ≤ py → py < ph → px < pw →
      ∃ t ∈ tileGridLoop fuel pw ph vw vh ov y row idx,
        t.x ≤ px ∧ px < t.x + t.width ∧ t.y ≤ py ∧ py < t.y + t.height := by
  intro fuel
  induction fuel with
  | zero => intro y row idx px py hy hf _ _ _; omega
  | succ fuel ih =>
    intro y row idx px py hy hf hyp hpp hxp
    simp only [tileGridLoop]
    rw [if_pos hy]
    by_cases hbreak : y + min vh (ph - y) ≥ ph
    · rw [if_pos hbreak]
      obtain ⟨t, ht, h1, h2⟩ := tileRowLoop_cover pw vw ov y (min vh (ph - y)) row hovw
        pw idx 0 0 px hpw (by omega) (by omega) hxp
      obtain ⟨a1, a2, _, _, _, _, _⟩ :=
        tileRowLoop_mem pw vw ov y (min vh (ph - y)) row pw idx 0 0 t ht
      exact ⟨t, ht, h1, h2, by omega, by omega⟩
    · rw [if_neg hbreak]
      by_cases hcov : py < y + min vh (ph - y)
      · obtain ⟨t, ht, h1, h2⟩ := tileRowLoop_cover pw vw ov y (min vh (ph - y)) row hovw
          pw idx 0 0 px hpw (by omega) (by omega) hxp
        obtain ⟨a1, a2, _, _, _, _, _⟩ :=
          tileRowLoop_mem pw vw ov y (min vh (ph - y)) row pw idx 0 0 t ht
        exact ⟨t, List.mem_append_left _ ht, h1, h2, by omega, by omega⟩
      · have hth : min vh (ph - y) = vh := by omega
        obtain ⟨t, ht, h1, h2, h3, h4⟩ := ih (y + (vh - ov)) (row + 1) _ px py
          (by omega) (by omega) (by omega) hpp hxp
        exact ⟨t, List.mem_append_right _ ht, h1, h2, h3, h4⟩

/-- Two tiles of the grid in consecutive rows: the earlier one is a
full-height tile (the iteration of its row continued) and the later row starts
exactly one step `viewport_height - overlap` below it, strictly above the
page bottom. -/
lemma tileGridLoop_adjacent_rows (pw ph vw vh ov : Nat) :
    ∀ (fuel y row idx : Nat) (t1 t2 : TileBounds),
      t1 ∈ tileGridLoop fuel pw ph vw vh ov y row idx →
      t2 ∈ tileGridLoop fuel pw ph vw vh ov y row idx →
      t2.row = t1.row + 1 →
      t1.height = vh ∧ t2.y = t1.y + (vh - ov) ∧ t1.y + vh < ph := by
  intro fuel
  induction fuel with
  | zero => intro y row idx t1 t2 h1 _ _; simp [tileGridLoop] at h1
  | succ fuel ih =>
    intro y row idx t1 t2 h1 h2 hrow
    simp only [tileGridLoop] at h1 h2
    by_cases hy : y < ph
    · rw [if_pos hy] at h1 h2
      by_cases hbreak : y + min vh (ph - y) ≥ ph
      · rw [if_pos hbreak] at h1 h2
        obtain ⟨_, _, r1, _, _, _, _⟩ :=
          tileRowLoop_mem pw vw ov y (min vh (ph - y)) row pw idx 0 0 t1 h1
        obtain ⟨_, _, r2, _, _, _, _⟩ :=
          tileRowLoop_mem pw vw ov y (min vh (ph - y)) row pw idx 0 0 t2 h2
        omega
      · rw [if_neg hbreak] at h1 h2
        have hth : min vh (ph - y) = vh := by omega
        rcases List.mem_append.mp h1 with m1 | m1
        · obtain ⟨y1, hh1, r1, _, _, _, _⟩ :=
            tileRowLoop_mem pw vw ov y (min vh (ph - y)) row pw idx 0 0 t1 m1
          rcases List.mem_append.mp h2 with m2 | m2
          · obtain ⟨_, _, r2, _, _, _, _⟩ :=
              tileRowLoop_mem pw vw ov y (min vh (ph - y)) row pw idx 0 0 t2 m2
            omega
          · obtain ⟨_, _, _, c4, c5⟩ := tileGridLoop_mem pw ph vw vh ov fuel
              (y + (vh - ov)) (row + 1) _ t2 m2
            have hy2 : t2.y = y + (vh - ov) := c5 (by omega)
            exact ⟨by rw [hh1, hth], by rw [hy2, y1], by omega⟩
        · rcases List.mem_append.mp h2 with m2 | m2
          · obtain ⟨_, _, r2, _, _, _, _⟩ :=
              tileRowLoop_mem pw vw ov y (min vh (ph - y)) row pw idx 0 0 t2 m2
            obtain ⟨_, _, _, c4, _⟩ := tileGridLoop_mem pw ph vw vh ov fuel
              (y + (vh - ov)) (row + 1) _ t1 m1
            omega
          · exact ih (y + (vh - ov)) (row + 1) _ t1 t2 m1 m2 hrow
    · rw [if_neg hy] at h1
      simp at h1

/-- Two tiles of the grid in the same row and consecutive columns: the
earlier one is full-width, the later one starts exactly one step
`viewport_width - overlap` after it, strictly inside the page, and the later
later one has its own clipped width. -/
lemma tileGridLoop_adjacent_cols (pw ph vw vh ov : Nat) :
    ∀ (fuel y row idx : Nat) (t1 t2 : TileBounds),
      t1 ∈ tileGridLoop fuel pw ph vw vh ov y row idx →
      t2 ∈ tileGridLoop fuel pw ph vw vh ov y row idx →
      t1.row = t2.row → t2.column = t1.column + 1 →
      t1.width = vw ∧ t2.x = t1.x + (vw - ov) ∧ t1.x + vw < pw ∧
        t2.width = min vw (pw - t2.x) := by
  intro fuel
  induction fuel with
  | zero => intro y row idx t1 t2 h1 _ _ _; simp [tileGridLoop] at h1
  | succ fuel ih =>
    intro y row idx t1 t2 h1 h2 hrow hcol
    simp only [tileGridLoop] at h1 h2
    by_cases hy : y < ph
    · rw [if_pos hy] at h1 h2
      by_cases hbreak : y + min vh (ph - y) ≥ ph
      · rw [if_pos hbreak] at h1 h2
        obtain ⟨w1, w2, w3⟩ :=
          tileRowLoop_adjacent pw vw ov y (min vh (ph - y)) row pw idx 0 0 t1 t2 h1 h2 hcol
        obtain ⟨_, _, _, _, w4, _, _⟩ :=
          tileRowLoop_mem pw vw ov y (min vh (ph - y)) row pw idx 0 0 t2 h2
        exact ⟨w1, w2, w3, w4⟩
      · rw [if_neg hbreak] at h1 h2
        rcases List.mem_append.mp h1 with m1 | m1
        · rcases List.mem_append.mp h2 with m2 | m2
          · obtain ⟨w1, w2, w3⟩ := tileRowLoop_adjacent pw vw ov y (min vh (ph - y)) row
              pw idx 0 0 t1 t2 m1 m2 hcol
            obtain ⟨_, _, _, _, w4, _, _⟩ :=
              tileRowLoop_mem pw vw ov y (min vh (ph - y)) row pw idx 0 0 t2 m2
            exact ⟨w1, w2, w3, w4⟩
          · obtain ⟨_, _, r1, _, _, _, _⟩ :=
              tileRowLoop_mem pw vw ov y (min vh (ph - y)) row pw idx 0 0 t1 m1
            obtain ⟨_, _, _, c4, _⟩ := tileGridLoop_mem pw ph vw vh ov fuel
              (y + (vh - ov)) (row + 1) _ t2 m2
            omega
        · rcases List.mem_append.mp h2 with m2 | m2
          · obtain ⟨_, _, r2, _, _, _, _⟩ :=
              tileRowLoop_mem pw vw ov y (min vh (ph - y)) row pw idx 0 0 t2 m2
            obtain ⟨_, _, _, c4, _⟩ := tileGridLoop_mem pw ph vw vh ov fuel
              (y + (vh - ov)) (row + 1) _ t1 m1
            omega
          · exact ih (y + (vh - ov)) (row + 1) _ t1 t2 m1 m2 hrow hcol
    · rw [if_neg hy] at h1
      simp at h1

/-- Claim C1: on valid input (positive dimensions,
`0 ≤ overlap < viewport_width` and `overlap < viewport_height`),
`calculate_tile_grid` succeeds, every point of the page rectangle
`[0, page_width) × [0, page_height)` lies inside at least one returned tile,
and every returned tile lies entirely within the page rectangle (edge tiles
are clipped, never extending past the boundary). -/
theorem calculate_tile_grid_coverage (page_width page_height viewport_width
      viewport_height overlap : Int)
    (hpw : 0 < page_width) (hph : 0 < page_height) (hvw : 0 < viewport_width)
    (hvh : 0 < viewport_height) (hov0 : 0 ≤ overlap) (hovw : overlap < viewport_width)
    (hovh : overlap < viewport_height) :
    ∃ tiles, calculate_tile_grid page_height viewport_height overlap
        (some page_width) (some viewport_width) = .ok tiles ∧
      (∀ px py : Nat, px < page_width.toNat → py < page_height.toNat →
        ∃ t ∈ tiles, t.x ≤ px ∧ px < t.x + t.width ∧ t.y ≤ py ∧ py < t.y + t.height) ∧
      (∀ t ∈ tiles, t.x + t.width ≤ page_width.toNat ∧
        t.y + t.height ≤ page_height.toNat) := by
  have hval : _validate_dimensions
      ((some page_width).getD ((some viewport_width).getD 1200)) page_height
      ((some viewport_width).getD 1200) viewport_height overlap = none := by
    simp only [Option.getD_some]
    exact validate_none_of_valid _ _ _ _ _ hpw hph hvw hvh hov0 hovw hovh
  refine ⟨_, calculate_tile_grid_ok _ _ _ _ _ hval, ?_, ?_⟩
  · intro px py hx hy
    have hc := tileGridLoop_cover page_width.toNat page_height.toNat viewport_width.toNat
      viewport_height.toNat overlap.toNat (by omega) (by omega) (by omega)
      page_height.toNat 0 0 0 px py (by omega) (by omega) (by omega) hy hx
    simpa using hc
  · intro t ht
    have hm := tileGridLoop_mem page_width.toNat page_height.toNat viewport_width.toNat
      viewport_height.toNat overlap.toNat page_height.toNat 0 0 0 t (by simpa using ht)
    obtain ⟨m1, m2, m3, _, _⟩ := hm
    constructor
    · exact m3
    · omega

/-- Witness for C1 at `page = 100 × 90`, `tile = 60 × 50`, `overlap = 10`. -/
theorem calculate_tile_grid_coverage_witness :
    ∃ tiles, calculate_tile_grid 90 50 10 (some 100) (some 60) = .ok tiles ∧
      (∀ px py : Nat, px < (100 : ℤ).toNat → py < (90 : ℤ).toNat →
        ∃ t ∈ tiles, t.x ≤ px ∧ px < t.x + t.width ∧ t.y ≤ py ∧ py < t.y + t.height) ∧
      (∀ t ∈ tiles, t.x + t.width ≤ (100 : ℤ).toNat ∧ t.y + t.height ≤ (90 : ℤ).toNat) :=
  calculate_tile_grid_coverage 100 90 60 50 10 (by norm_num) (by norm_num) (by norm_num)
    (by norm_num) (by norm_num) (by norm_num) (by norm_num)

/-- Claim C2: on valid input, any two tiles adjacent in the same row overlap
horizontally by exactly the configured overlap — the right edge of the
earlier tile lies exactly `overlap` pixels past the left edge of the later
tile and not past its right edge — and symmetrically any two tiles in the
same column and consecutive rows overlap vertically by exactly the
configured overlap.  (This holds for the final seam too, so the allowance
of the claim for a larger final overlap is never exercised.) -/
theorem calculate_tile_grid_seam_overlap (page_height viewport_height overlap : Int)
    (page_width viewport_width : Option Int)
    (hpw : 0 < page_width.getD (viewport_width.getD 1200)) (hph : 0 < page_height)
    (hvw : 0 < viewport_width.getD 1200) (hvh : 0 < viewport_height)
    (hov0 : 0 ≤ overlap) (hovw : overlap < viewport_width.getD 1200)
    (hovh : overlap < viewport_height) :
    ∃ tiles, calculate_tile_grid page_height viewport_height overlap
        page_width viewport_width = .ok tiles ∧
      (∀ t1 ∈ tiles, ∀ t2 ∈ tiles, t1.row = t2.row → t2.column = t1.column + 1 →
        t1.x ≤ t2.x ∧ t2.x + overlap.toNat = t1.x + t1.width ∧
          t1.x + t1.width ≤ t2.x + t2.width) ∧
      (∀ t1 ∈ tiles, ∀ t2 ∈ tiles, t1.column = t2.column → t2.row = t1.row + 1 →
        t1.y ≤ t2.y ∧ t2.y + overlap.toNat = t1.y + t1.height ∧
          t1.y + t1.height ≤ t2.y + t2.height) := by
  have hval : _validate_dimensions (page_width.getD (viewport_width.getD 1200)) page_height
      (viewport_width.getD 1200) viewport_height overlap = none :=
    validate_none_of_valid _ _ _ _ _ hpw hph hvw hvh hov0 hovw hovh
  refine ⟨_, calculate_tile_grid_ok _ _ _ _ _ hval, ?_, ?_⟩
  · intro t1 h1 t2 h2 hrow hcol
    obtain ⟨w1, w2, w3, w4⟩ := tileGridLoop_adjacent_cols
      (page_width.getD (viewport_width.getD 1200)).toNat page_height.toNat
      (viewport_width.getD 1200).toNat viewport_height.toNat overlap.toNat
      page_height.toNat 0 0 0 t1 t2 h1 h2 hrow hcol
    refine ⟨by omega, by omega, by omega⟩
  · intro t1 h1 t2 h2 hcol hrow
    obtain ⟨w1, w2, w3⟩ := tileGridLoop_adjacent_rows
      (page_width.getD (viewport_width.getD 1200)).toNat page_height.toNat
      (viewport_width.getD 1200).toNat viewport_height.toNat overlap.toNat
      page_height.toNat 0 0 0 t1 t2 h1 h2 hrow
    obtain ⟨_, m2, _, _, _⟩ := tileGridLoop_mem
      (page_width.getD (viewport_width.getD 1200)).toNat page_height.toNat
      (viewport_width.getD 1200).toNat viewport_height.toNat overlap.toNat
      page_height.toNat 0 0 0 t2 h2
    refine ⟨by omega, by omega, by omega⟩

/-- Witness for C2: `calculate_tile_grid(page_height=3000,
viewport_height=800, overlap=50)` returns exactly 4 single-column tiles,
the first `(0, 0, 1200, 800)`, rows at `y = 0, 750, 1500, 2250` with heights
`800, 800, 800, 750` — every consecutive vertical overlap is exactly 50 —
and the seam properties instantiate at this input. -/
theorem calculate_tile_grid_seam_overlap_witness :
    calculate_tile_grid 3000 800 50 none none =
      .ok [⟨0, 0, 0, 0, 0, 1200, 800⟩, ⟨1, 1, 0, 0, 750, 1200, 800⟩,
           ⟨2, 2, 0, 0, 1500, 1200, 800⟩, ⟨3, 3, 0, 0, 2250, 1200, 750⟩] ∧
    (∃ tiles, calculate_tile_grid 3000 800 50 none none = .ok tiles ∧
      (∀ t1 ∈ tiles, ∀ t2 ∈ tiles, t1.row = t2.row → t2.column = t1.column + 1 →
        t1.x ≤ t2.x ∧ t2.x + (50 : ℤ).toNat = t1.x + t1.width ∧
          t1.x + t1.width ≤ t2.x + t2.width) ∧
      (∀ t1 ∈ tiles, ∀ t2 ∈ tiles, t1.column = t2.column → t2.row = t1.row + 1 →
        t1.y ≤ t2.y ∧ t2.y + (50 : ℤ).toNat = t1.y + t1.height ∧
          t1.y + t1.height ≤ t2.y + t2.height)) :=
  ⟨by rfl,
   calculate_tile_grid_seam_overlap 3000 800 50 none none (by decide) (by decide) (by decide)
     (by decide) (by decide) (by decide) (by decide)⟩
